import Mathlib

/-!
# Frame Management Service — verification of the navigation state machine and session registry

Shallow embedding of `src/core/frame.machine.ts` (an XState 5 statechart) and
`src/services/session.service.ts`.  The machine is modelled as a pure step
function on configurations `(state, history, context)`; XState 5 semantics are
reproduced faithfully:

* transition selection is innermost-state first, bubbling to ancestors, with the
  first guard-enabled transition in document order winning;
* a targetless transition executes its actions without exiting or re-entering
  any state (XState 5 ignores `reenter` on targetless transitions);
* a `raise`d event is queued and processed only after the current transition
  (including its explicit `target`) has completed;
* the shallow history pseudostate of `ArbeitsModus` is modelled as an explicit
  field recording the last active child at the moment `ArbeitsModus` is exited;
* a top-level final state (`DienstAbgeschlossen`) processes no further events.

JavaScript value quirks that matter are kept: `event.list[0] ?? LEERER_FRAME`
falls back only on a missing element, while `!active.list[active.index]` in
`setAktuellerFrame` is a falsy check that also triggers on the empty string.
-/

namespace FrameService

/-- Frame fallback constant `LEERER_FRAME` (the "empty frame" sentinel). -/
def LEERER_FRAME : String := "LEERER_FRAME"

/-- Frame fallback constant `BESTAETIGUNG_FRAME` (the "awaiting confirmation" sentinel). -/
def BESTAETIGUNG_FRAME : String := "BESTAETIGUNG_FRAME"

/-- `AnzeigeKontext` from `machine.types.ts`: which list feeds the current frame. -/
inductive AnzeigeKontext
  | ENTITAET
  | ALLGEMEIN
  | NOTFALL
  | INAKTIV
deriving Repr, DecidableEq

/-- The `context` payload of `LADE_NEUE_LISTE` (`'ENTITAET' | 'ALLGEMEIN'`). -/
inductive LadeKontext
  | ENTITAET
  | ALLGEMEIN
deriving Repr, DecidableEq

/-- The string comparison `context.anzeigeKontext === event.context` compares the
two literal unions; this injection mirrors the shared string literals. -/
def LadeKontext.toAnzeige : LadeKontext → AnzeigeKontext
  | .ENTITAET => .ENTITAET
  | .ALLGEMEIN => .ALLGEMEIN

/-- `FrameContext` from `machine.types.ts`. -/
structure FrameContext where
  entitaetListe : List String
  allgemeineListe : List String
  notfallListe : List String
  aktuellerEntitaetIndex : Nat
  aktuellerAllgemeinIndex : Nat
  aktuellerNotfallIndex : Nat
  anzeigeKontext : AnzeigeKontext
  aktuellerFrame : String
  herkunftsZustand : String
deriving Repr, DecidableEq

/-- `initialContext` from `frame.machine.ts`. -/
def initialContext : FrameContext :=
  { entitaetListe := []
    allgemeineListe := []
    notfallListe := []
    aktuellerEntitaetIndex := 0
    aktuellerAllgemeinIndex := 0
    aktuellerNotfallIndex := 0
    anzeigeKontext := .INAKTIV
    aktuellerFrame := ""
    herkunftsZustand := "Inaktiv" }

/-- `FrameEvent` from `machine.types.ts` (the nine recognized event variants). -/
inductive FrameEvent
  | schliessen
  | zuruecksetzen
  | ausschalten
  | naechsterFrame
  | vorherigerFrame
  | sucheFrame (frameName : String)
  | notfallEmpfangen (list : List String)
  | userBestaetigtNotfall (accepted : Bool)
  | ladeNeueListe (list : List String) (context : LadeKontext)
deriving Repr, DecidableEq

/-- Children of the compound state `ArbeitsModus`. -/
inductive ArbeitsChild
  | Entitaet
  | Allgemein
deriving Repr, DecidableEq

/-- The display context installed by each `ArbeitsModus` child's entry action. -/
def ArbeitsChild.anzeige : ArbeitsChild → AnzeigeKontext
  | .Entitaet => .ENTITAET
  | .Allgemein => .ALLGEMEIN

/-- Children of the compound state `NotfallModus`. -/
inductive NotfallChild
  | Bestaetigen
  | Anzeigen
deriving Repr, DecidableEq

/-- The state configuration of `frameMachine` (leaf states of the statechart). -/
inductive MachineState
  | Inaktiv
  | ArbeitsModus (child : ArbeitsChild)
  | NotfallModus (child : NotfallChild)
  | DienstAbgeschlossen
deriving Repr, DecidableEq

/-- A full machine configuration: leaf state, the shallow-history slot of
`ArbeitsModus` (`HISTORISCHER_ZUSTAND`, recorded when `ArbeitsModus` is exited,
defaulting to the initial child `Entitaet`), and the extended context. -/
structure Config where
  state : MachineState
  history : ArbeitsChild
  context : FrameContext
deriving Repr, DecidableEq

/-- Which cursor field the active selection writes back to (`active.key`). -/
inductive CursorKey
  | entitaet
  | allgemein
  | notfall
deriving Repr, DecidableEq

/-- The record returned by `getActiveContext`. -/
structure ActiveSelection where
  list : List String
  index : Nat
  key : CursorKey
deriving Repr, DecidableEq

/-- `getActiveContext` from `frame.machine.ts`: select list/index by `anzeigeKontext`. -/
def getActiveContext (c : FrameContext) : Option ActiveSelection :=
  match c.anzeigeKontext with
  | .ENTITAET => some ⟨c.entitaetListe, c.aktuellerEntitaetIndex, .entitaet⟩
  | .ALLGEMEIN => some ⟨c.allgemeineListe, c.aktuellerAllgemeinIndex, .allgemein⟩
  | .NOTFALL => some ⟨c.notfallListe, c.aktuellerNotfallIndex, .notfall⟩
  | .INAKTIV => none

/-- The computed-key update `{ [active.key]: newIndex, aktuellerFrame: frame }`. -/
def assignActive (c : FrameContext) (k : CursorKey) (idx : Nat) (frame : String) :
    FrameContext :=
  match k with
  | .entitaet => { c with aktuellerEntitaetIndex := idx, aktuellerFrame := frame }
  | .allgemein => { c with aktuellerAllgemeinIndex := idx, aktuellerFrame := frame }
  | .notfall => { c with aktuellerNotfallIndex := idx, aktuellerFrame := frame }

/-- `Array.prototype.indexOf`: index of the first element strictly equal to
`name`, `none` when absent (the JS code returns `-1`). -/
def listIndexOf (l : List String) (name : String) : Option Nat :=
  match l with
  | [] => none
  | x :: xs => if x = name then some 0 else (listIndexOf xs name).map (· + 1)

/-- Action `setNewList`: install the event's list into the targeted sequence,
reset its cursor, and show `event.list[0] ?? LEERER_FRAME`.  (The JS `else`
branch is unreachable: `event.context` is one of the two literals.) -/
def setNewList (c : FrameContext) (list : List String) (kontext : LadeKontext) :
    FrameContext :=
  let firstFrame := list.headD LEERER_FRAME
  match kontext with
  | .ENTITAET =>
      { c with entitaetListe := list, aktuellerEntitaetIndex := 0,
               aktuellerFrame := firstFrame }
  | .ALLGEMEIN =>
      { c with allgemeineListe := list, aktuellerAllgemeinIndex := 0,
               aktuellerFrame := firstFrame }

/-- Action `initNotfallModus`: install the emergency list, reset its cursor,
switch the display context and show the confirmation frame. -/
def initNotfallModus (c : FrameContext) (list : List String) : FrameContext :=
  { c with notfallListe := list, aktuellerNotfallIndex := 0,
           anzeigeKontext := .NOTFALL, aktuellerFrame := BESTAETIGUNG_FRAME }

/-- Action `frameNavigation`: move the active cursor by `delta` (`+1` for
`NAECHSTER_FRAME`, `-1` otherwise) with the JS boundary check on the signed
`newIndex`. -/
def frameNavigation (c : FrameContext) (delta : Int) : FrameContext :=
  match getActiveContext c with
  | none => c
  | some active =>
      let newIndex : Int := (active.index : Int) + delta
      if newIndex < 0 ∨ newIndex ≥ (active.list.length : Int) then c
      else assignActive c active.key newIndex.toNat
        ((active.list.get? newIndex.toNat).getD LEERER_FRAME)

/-- Action `searchFrame`: jump to the first exact match in the active list,
no-op when absent (`indexOf` returned `-1`). -/
def searchFrame (c : FrameContext) (frameName : String) : FrameContext :=
  match getActiveContext c with
  | none => c
  | some active =>
      match listIndexOf active.list frameName with
      | some foundIndex =>
          assignActive c active.key foundIndex
            ((active.list.get? foundIndex).getD LEERER_FRAME)
      | none => c

/-- Action `setAktuellerFrame`: show `active.list[active.index]`, falling back
to `LEERER_FRAME` when there is no active selection or the element is falsy
(missing or the empty string — the JS check is `!active.list[active.index]`). -/
def setAktuellerFrame (c : FrameContext) : FrameContext :=
  { c with aktuellerFrame :=
      match getActiveContext c with
      | none => LEERER_FRAME
      | some active =>
          match active.list.get? active.index with
          | none => LEERER_FRAME
          | some f => if f = "" then LEERER_FRAME else f }

/-- Guard `hasNextFrame`. -/
def hasNextFrame (c : FrameContext) : Bool :=
  match getActiveContext c with
  | none => false
  | some active =>
      active.list.length != 0 && active.index < active.list.length - 1

/-- Guard `hasPreviousFrame`. -/
def hasPreviousFrame (c : FrameContext) : Bool :=
  match getActiveContext c with
  | none => false
  | some active => active.list.length != 0 && active.index > 0

/-- Entry actions of `Inaktiv`: `sendLeererFrame` then
`assign({herkunftsZustand: 'Inaktiv', anzeigeKontext: 'INAKTIV'})`. -/
def enterInaktiv (c : FrameContext) : FrameContext :=
  { c with aktuellerFrame := LEERER_FRAME, herkunftsZustand := "Inaktiv",
           anzeigeKontext := .INAKTIV }

/-- Entry action of `ArbeitsModus`: record the origin for emergency routing. -/
def enterArbeitsModus (c : FrameContext) : FrameContext :=
  { c with herkunftsZustand := "ArbeitsModus" }

/-- Entry actions of the `ArbeitsModus` children: set the display context and
recompute the current frame. -/
def enterArbeitsChild (ch : ArbeitsChild) (c : FrameContext) : FrameContext :=
  match ch with
  | .Entitaet => setAktuellerFrame { c with anzeigeKontext := .ENTITAET }
  | .Allgemein => setAktuellerFrame { c with anzeigeKontext := .ALLGEMEIN }

/-- Entry action of `NotfallModus`. -/
def enterNotfallModus (c : FrameContext) : FrameContext :=
  { c with anzeigeKontext := .NOTFALL }

/-- Entry action of `Bestaetigen` (`sendBestaetigungFrame`). -/
def enterBestaetigen (c : FrameContext) : FrameContext :=
  { c with aktuellerFrame := BESTAETIGUNG_FRAME }

/-- Entry action of `DienstAbgeschlossen` (`sendLeererFrame`). -/
def enterDienst (c : FrameContext) : FrameContext :=
  { c with aktuellerFrame := LEERER_FRAME }

/-- The machine-wide handling of a `SCHLIESSEN` event: `ArbeitsModus` closes to
`Inaktiv`; `NotfallModus` routes by `herkunftsZustand` (first enabled guard in
document order), targeting the shallow history of `ArbeitsModus` or `Inaktiv`;
every other state leaves the event unhandled. -/
def onSchliessen (cfg : Config) : Config :=
  match cfg.state with
  | .ArbeitsModus ch =>
      { state := .Inaktiv, history := ch, context := enterInaktiv cfg.context }
  | .NotfallModus _ =>
      if cfg.context.herkunftsZustand = "ArbeitsModus" then
        { state := .ArbeitsModus cfg.history, history := cfg.history,
          context := enterArbeitsChild cfg.history (enterArbeitsModus cfg.context) }
      else if cfg.context.herkunftsZustand = "Inaktiv" then
        { state := .Inaktiv, history := cfg.history, context := enterInaktiv cfg.context }
      else cfg
  | _ => cfg

/-- One run-to-completion step of `frameMachine`.  The two root-level handlers
(`NOTFALL_EMPFANGEN`, `ZURUCKSETZEN`) are reached from every non-final state
because no inner state handles those events; exiting `ArbeitsModus` records its
active child in the shallow-history slot.  The rejection branch of
`USER_BESTAETIGT_NOTFALL` takes its explicit target `#frameMachine.Inaktiv`
first and only then delivers the `raise`d `SCHLIESSEN` — in `Inaktiv`, where it
is unhandled. -/
def step (cfg : Config) (e : FrameEvent) : Config :=
  match cfg.state, e with
  | .DienstAbgeschlossen, _ => cfg
  | s, .notfallEmpfangen list =>
      { state := .NotfallModus .Bestaetigen
        history := match s with | .ArbeitsModus ch => ch | _ => cfg.history
        context := enterBestaetigen (enterNotfallModus
          (initNotfallModus cfg.context list)) }
  | s, .zuruecksetzen =>
      { state := .Inaktiv
        history := match s with | .ArbeitsModus ch => ch | _ => cfg.history
        context := enterInaktiv initialContext }
  | .Inaktiv, .ladeNeueListe list kontext =>
      match kontext with
      | .ENTITAET =>
          { state := .ArbeitsModus .Entitaet, history := cfg.history,
            context := enterArbeitsChild .Entitaet
              (enterArbeitsModus (setNewList cfg.context list kontext)) }
      | .ALLGEMEIN =>
          { state := .ArbeitsModus .Allgemein, history := cfg.history,
            context := enterArbeitsChild .Allgemein
              (enterArbeitsModus (setNewList cfg.context list kontext)) }
  | .Inaktiv, .ausschalten =>
      { state := .DienstAbgeschlossen, history := cfg.history,
        context := enterDienst cfg.context }
  | .Inaktiv, _ => cfg
  | .ArbeitsModus ch, .ladeNeueListe list kontext =>
      -- child handlers are consulted first, then `ArbeitsModus.on`
      match ch, kontext with
      | .Entitaet, .ALLGEMEIN =>
          { state := .ArbeitsModus .Allgemein, history := cfg.history,
            context := enterArbeitsChild .Allgemein (setNewList cfg.context list kontext) }
      | .Allgemein, .ENTITAET =>
          { state := .ArbeitsModus .Entitaet, history := cfg.history,
            context := enterArbeitsChild .Entitaet (setNewList cfg.context list kontext) }
      | _, _ =>
          if kontext.toAnzeige = cfg.context.anzeigeKontext then
            { cfg with context := setNewList cfg.context list kontext }
          else cfg
  | .ArbeitsModus _, .schliessen => onSchliessen cfg
  | .ArbeitsModus _, .sucheFrame name =>
      { cfg with context := searchFrame cfg.context name }
  | .ArbeitsModus _, .naechsterFrame =>
      if hasNextFrame cfg.context then
        { cfg with context := frameNavigation cfg.context 1 }
      else cfg
  | .ArbeitsModus _, .vorherigerFrame =>
      if hasPreviousFrame cfg.context then
        { cfg with context := frameNavigation cfg.context (-1) }
      else cfg
  | .ArbeitsModus _, _ => cfg
  | .NotfallModus .Bestaetigen, .userBestaetigtNotfall accepted =>
      if accepted then
        { cfg with state := .NotfallModus .Anzeigen,
                   context := setAktuellerFrame cfg.context }
      else
        onSchliessen { state := .Inaktiv, history := cfg.history,
                       context := enterInaktiv cfg.context }
  | .NotfallModus _, .schliessen => onSchliessen cfg
  | .NotfallModus .Anzeigen, .naechsterFrame =>
      if hasNextFrame cfg.context then
        { cfg with context := frameNavigation cfg.context 1 }
      else cfg
  | .NotfallModus .Anzeigen, .vorherigerFrame =>
      if hasPreviousFrame cfg.context then
        { cfg with context := frameNavigation cfg.context (-1) }
      else cfg
  | .NotfallModus .Anzeigen, .sucheFrame name =>
      { cfg with context := searchFrame cfg.context name }
  | .NotfallModus _, _ => cfg

/-- The started machine: `createActor(frameMachine).start()` enters the initial
state `Inaktiv`, running its entry actions on `initialContext`. -/
def initialConfig : Config :=
  { state := .Inaktiv, history := .Entitaet, context := enterInaktiv initialContext }

/-- Configurations reachable from the started machine by dispatched events. -/
inductive Reachable : Config → Prop
  | init : Reachable initialConfig
  | dispatch {c : Config} (e : FrameEvent) : Reachable c → Reachable (step c e)

/-!
## Session registry (`session.service.ts`)

The registry is modelled as a pure association from session ids to machine
configurations; each operation returns the updated store and/or result in
`Except`.  The service throws plain `Error`s; the spec's taxonomy maps the
"Ungültige …" messages to `InvalidArgument` and the "… nicht gefunden" messages
to `NotFound`, which the error type records.
-/

/-- The spec's error taxonomy for the messages thrown by `SessionService`. -/
inductive ServiceError
  | invalidArgument (msg : String)
  | notFound (msg : String)
deriving Repr, DecidableEq

/-- Message of the invalid-session-id errors of `createSession`/`removeSession`/
`getSession`/`getSessionState`. -/
def invalidIdMsg : String := "Ungültige Session-ID: sessionId ist undefined oder leer."

/-- Message of the invalid-input error of `sendEvent`. -/
def invalidInputMsg : String :=
  "Ungültige Eingabe: sessionId oder event ist undefined oder leer."

/-- Message of the session-not-found errors. -/
def notFoundMsg (sessionId : String) : String :=
  "Session mit der ID '" ++ sessionId ++ "' nicht gefunden."

/-- `CleanSnapshot` from `machine.types.ts`. -/
structure CleanSnapshot where
  sessionId : String
  currentState : MachineState
  currentFrame : String
  context : FrameContext
deriving Repr, DecidableEq

/-- `cleanSnapshot`: the read-only projection of a machine configuration. -/
def cleanSnapshot (cfg : Config) (sessionId : String) : CleanSnapshot :=
  { sessionId := sessionId
    currentState := cfg.state
    currentFrame := cfg.context.aktuellerFrame
    context := cfg.context }

/-- The registry's `Map<string, FrameActor>`, as an association list. -/
abbrev SessionStore := List (String × Config)

/-- `Map.get`/`Map.has`: the configuration stored under `id`, if any. -/
def storeLookup (st : SessionStore) (id : String) : Option Config :=
  (st.find? (fun p => p.1 == id)).map (·.2)

/-- `Map.set`: insert or overwrite the entry for `id`. -/
def storeSet (st : SessionStore) (id : String) (cfg : Config) : SessionStore :=
  (id, cfg) :: st.filter (fun p => p.1 != id)

/-- The check of `sessionId.trim()` against the empty string: trimming yields
the empty string exactly when every character is whitespace. -/
def trimEmpty (s : String) : Bool := s.data.all Char.isWhitespace

/-- `createSession`: reject empty/whitespace ids, otherwise store and start a
fresh actor and return its initial snapshot. -/
def createSession (st : SessionStore) (sessionId : String) :
    Except ServiceError (SessionStore × CleanSnapshot) :=
  if sessionId = "" ∨ trimEmpty sessionId = true then
    .error (.invalidArgument invalidIdMsg)
  else
    .ok (storeSet st sessionId initialConfig, cleanSnapshot initialConfig sessionId)

/-- `getSession`: the guard is the JS falsy check `!sessionId`, which for a
string rejects only the empty string; any other id is looked up, with absence
reported as `none` rather than an error. -/
def getSession (st : SessionStore) (sessionId : String) :
    Except ServiceError (Option Config) :=
  if sessionId = "" then
    .error (.invalidArgument invalidIdMsg)
  else
    .ok (storeLookup st sessionId)

/-- `getSessionState`: validate via `getSession`, then fail `NotFound` for an
absent session, else return the snapshot without mutating. -/
def getSessionState (st : SessionStore) (sessionId : String) :
    Except ServiceError CleanSnapshot :=
  if sessionId = "" then
    .error (.invalidArgument invalidIdMsg)
  else
    match storeLookup st sessionId with
    | none => .error (.notFound (notFoundMsg sessionId))
    | some cfg => .ok (cleanSnapshot cfg sessionId)

/-- The wire-level argument of `sendEvent` before validation: the event object
may be missing, may lack a `type` discriminant, may carry one of the nine
recognized discriminants (with payload), or a defined but unrecognized one. -/
inductive DispatchInput
  | missing
  | noType
  | known (e : FrameEvent)
  | unknownType (t : String)
deriving Repr, DecidableEq

/-- `sendEvent`: the validation `!sessionId || !event || typeof event.type ===
'undefined'` rejects only an empty id, a missing event, or an undefined
discriminant; then the session is located (`NotFound` when absent) and the
event is handed to the actor.  XState delivers a recognized event to full
completion; an event whose `type` matches no transition anywhere leaves the
machine untouched, and the (new) snapshot is returned either way. -/
def sendEvent (st : SessionStore) (sessionId : String) (input : DispatchInput) :
    Except ServiceError (SessionStore × CleanSnapshot) :=
  if sessionId = "" then
    .error (.invalidArgument invalidInputMsg)
  else
    match input with
    | .missing =>
        .error (.invalidArgument invalidInputMsg)
    | .noType =>
        .error (.invalidArgument invalidInputMsg)
    | .known e =>
        match storeLookup st sessionId with
        | none => .error (.notFound (notFoundMsg sessionId))
        | some cfg =>
            .ok (storeSet st sessionId (step cfg e), cleanSnapshot (step cfg e) sessionId)
    | .unknownType _ =>
        match storeLookup st sessionId with
        | none => .error (.notFound (notFoundMsg sessionId))
        | some cfg => .ok (st, cleanSnapshot cfg sessionId)

/-!
## Invariants
-/

/-- Every key of the registry's store is a non-whitespace id: `createSession`
is the only way to add a key and it rejects ids whose `trim` is empty. -/
def StoreWF (st : SessionStore) : Prop := ∀ p ∈ st, trimEmpty p.1 = false

instance (st : SessionStore) : Decidable (StoreWF st) := by
  unfold StoreWF
  infer_instance

/-- The cursor discipline of §3 of the spec: within bounds on a non-empty list,
pinned to `0` on an empty one. -/
def cursorOk (l : List String) (i : Nat) : Prop :=
  (l = [] → i = 0) ∧ (l ≠ [] → i < l.length)

instance (l : List String) (i : Nat) : Decidable (cursorOk l i) := by
  unfold cursorOk; infer_instance

/-- All three cursors satisfy the cursor discipline. -/
def CursorInv (c : FrameContext) : Prop :=
  cursorOk c.entitaetListe c.aktuellerEntitaetIndex ∧
  cursorOk c.allgemeineListe c.aktuellerAllgemeinIndex ∧
  cursorOk c.notfallListe c.aktuellerNotfallIndex

instance (c : FrameContext) : Decidable (CursorInv c) := by
  unfold CursorInv; infer_instance

/-- `herkunftsZustand` agrees with the top-level mode: it reads `'Inaktiv'` in
`Inaktiv`, `'ArbeitsModus'` in `ArbeitsModus`, and one of the two in
`NotfallModus` (whichever mode the emergency interrupted). -/
def HerkunftInv (cfg : Config) : Prop :=
  match cfg.state with
  | .Inaktiv => cfg.context.herkunftsZustand = "Inaktiv"
  | .ArbeitsModus _ => cfg.context.herkunftsZustand = "ArbeitsModus"
  | .NotfallModus _ =>
      cfg.context.herkunftsZustand = "Inaktiv" ∨
      cfg.context.herkunftsZustand = "ArbeitsModus"
  | .DienstAbgeschlossen => True

instance (cfg : Config) : Decidable (HerkunftInv cfg) := by
  unfold HerkunftInv
  cases cfg.state <;> infer_instance

/-- `anzeigeKontext` agrees with the current state: `INAKTIV` in `Inaktiv`, the
child's context in `ArbeitsModus`, `NOTFALL` in `NotfallModus`. -/
def AnzeigeInv (cfg : Config) : Prop :=
  match cfg.state with
  | .Inaktiv => cfg.context.anzeigeKontext = .INAKTIV
  | .ArbeitsModus ch => cfg.context.anzeigeKontext = ch.anzeige
  | .NotfallModus _ => cfg.context.anzeigeKontext = .NOTFALL
  | .DienstAbgeschlossen => cfg.context.anzeigeKontext = .INAKTIV

instance (cfg : Config) : Decidable (AnzeigeInv cfg) := by
  unfold AnzeigeInv
  cases cfg.state <;> infer_instance

/-- The work-mode list that the shallow history child would resume. -/
def resumedList (cfg : Config) : List String :=
  match cfg.history with
  | .Entitaet => cfg.context.entitaetListe
  | .Allgemein => cfg.context.allgemeineListe

/-- The work-mode cursor that the shallow history child would resume. -/
def resumedIndex (cfg : Config) : Nat :=
  match cfg.history with
  | .Entitaet => cfg.context.aktuellerEntitaetIndex
  | .Allgemein => cfg.context.aktuellerAllgemeinIndex

/-!
## Helper lemmas
-/

theorem listIndexOf_lt_length {l : List String} {name : String} {i : Nat}
    (h : listIndexOf l name = some i) : i < l.length := by
  induction l generalizing i with
  | nil => simp [listIndexOf] at h
  | cons x xs ih =>
      by_cases hx : x = name
      · simp [listIndexOf, hx] at h
        simp
        omega
      · simp [listIndexOf, hx] at h
        obtain ⟨j, hj, rfl⟩ := h
        have := ih hj
        simp
        omega

theorem listIndexOf_get {l : List String} {name : String} {i : Nat}
    (h : listIndexOf l name = some i) : l.get? i = some name := by
  induction l generalizing i with
  | nil => simp [listIndexOf] at h
  | cons x xs ih =>
      by_cases hx : x = name
      · simp [listIndexOf, hx] at h
        simp [← h, hx]
      · simp [listIndexOf, hx] at h
        obtain ⟨j, hj, rfl⟩ := h
        simpa using ih hj

theorem listIndexOf_first {l : List String} {name : String} {i : Nat}
    (h : listIndexOf l name = some i) :
    ∀ j, j < i → l.get? j ≠ some name := by
  induction l generalizing i with
  | nil => simp [listIndexOf] at h
  | cons x xs ih =>
      by_cases hx : x = name
      · simp [listIndexOf, hx] at h
        intro j hj
        exact absurd hj (by omega)
      · simp [listIndexOf, hx] at h
        obtain ⟨j, hj, rfl⟩ := h
        intro k hk
        cases k with
        | zero => simpa using hx
        | succ m =>
            have := ih hj m (by omega)
            simpa using this

theorem listIndexOf_none_iff {l : List String} {name : String} :
    listIndexOf l name = none ↔ name ∉ l := by
  induction l with
  | nil => simp [listIndexOf]
  | cons x xs ih =>
      by_cases hx : x = name
      · simp [listIndexOf, hx]
      · simp [listIndexOf, hx, ih, Ne.symm hx]

theorem listIndexOf_isSome_of_mem {l : List String} {name : String}
    (h : name ∈ l) : ∃ i, listIndexOf l name = some i := by
  cases hfind : listIndexOf l name with
  | none => exact absurd (listIndexOf_none_iff.mp hfind) (by simpa using h)
  | some i => exact ⟨i, rfl⟩

theorem cursorOk_zero (l : List String) : cursorOk l 0 := by
  constructor
  · intro _; rfl
  · intro h; exact List.length_pos.mpr h

theorem cursorOk_of_lt {l : List String} {i : Nat} (h : i < l.length) :
    cursorOk l i := by
  constructor
  · intro hl; subst hl; simp at h
  · intro _; exact h

/-! Context transformers that do not touch any list or cursor preserve `CursorInv`. -/

theorem cursorInv_setAktuellerFrame {c : FrameContext} (h : CursorInv c) :
    CursorInv (setAktuellerFrame c) := h

theorem cursorInv_enterInaktiv {c : FrameContext} (h : CursorInv c) :
    CursorInv (enterInaktiv c) := h

theorem cursorInv_enterArbeitsModus {c : FrameContext} (h : CursorInv c) :
    CursorInv (enterArbeitsModus c) := h

theorem cursorInv_enterArbeitsChild {ch : ArbeitsChild} {c : FrameContext}
    (h : CursorInv c) : CursorInv (enterArbeitsChild ch c) := by
  cases ch <;> exact h

theorem cursorInv_enterNotfallModus {c : FrameContext} (h : CursorInv c) :
    CursorInv (enterNotfallModus c) := h

theorem cursorInv_enterBestaetigen {c : FrameContext} (h : CursorInv c) :
    CursorInv (enterBestaetigen c) := h

theorem cursorInv_enterDienst {c : FrameContext} (h : CursorInv c) :
    CursorInv (enterDienst c) := h

theorem cursorInv_setNewList {c : FrameContext} (l : List String)
    (k : LadeKontext) (h : CursorInv c) : CursorInv (setNewList c l k) := by
  obtain ⟨h1, h2, h3⟩ := h
  cases k
  · exact ⟨cursorOk_zero l, h2, h3⟩
  · exact ⟨h1, cursorOk_zero l, h3⟩

theorem cursorInv_initNotfallModus {c : FrameContext} (l : List String)
    (h : CursorInv c) : CursorInv (initNotfallModus c l) := by
  obtain ⟨h1, h2, h3⟩ := h
  exact ⟨h1, h2, cursorOk_zero l⟩

/-- Unfolding `frameNavigation` once the active selection is known. -/
theorem frameNavigation_eq {c : FrameContext} {a : ActiveSelection} (d : Int)
    (hget : getActiveContext c = some a) :
    frameNavigation c d =
      if (a.index : Int) + d < 0 ∨ (a.index : Int) + d ≥ (a.list.length : Int) then c
      else assignActive c a.key ((a.index : Int) + d).toNat
             ((a.list.get? ((a.index : Int) + d).toNat).getD LEERER_FRAME) := by
  unfold frameNavigation
  rw [hget]

/-- Unfolding `searchFrame` once the active selection is known. -/
theorem searchFrame_eq {c : FrameContext} {a : ActiveSelection} (name : String)
    (hget : getActiveContext c = some a) :
    searchFrame c name =
      match listIndexOf a.list name with
      | some foundIndex =>
          assignActive c a.key foundIndex ((a.list.get? foundIndex).getD LEERER_FRAME)
      | none => c := by
  unfold searchFrame
  rw [hget]

theorem cursorInv_assignActive {c : FrameContext} {a : ActiveSelection}
    (hget : getActiveContext c = some a) (idx : Nat) (f : String)
    (hidx : idx < a.list.length) (h : CursorInv c) :
    CursorInv (assignActive c a.key idx f) := by
  obtain ⟨h1, h2, h3⟩ := h
  unfold getActiveContext at hget
  cases hk : c.anzeigeKontext <;> rw [hk] at hget
  case ENTITAET =>
    injection hget with hget
    subst hget
    exact ⟨cursorOk_of_lt hidx, h2, h3⟩
  case ALLGEMEIN =>
    injection hget with hget
    subst hget
    exact ⟨h1, cursorOk_of_lt hidx, h3⟩
  case NOTFALL =>
    injection hget with hget
    subst hget
    exact ⟨h1, h2, cursorOk_of_lt hidx⟩
  case INAKTIV => exact absurd hget (by simp)

theorem cursorInv_frameNavigation {c : FrameContext} (d : Int)
    (h : CursorInv c) : CursorInv (frameNavigation c d) := by
  cases hget : getActiveContext c with
  | none => unfold frameNavigation; rw [hget]; exact h
  | some a =>
      rw [frameNavigation_eq d hget]
      split
      · exact h
      · rename_i hcond
        rw [not_or] at hcond
        exact cursorInv_assignActive hget _ _ (by omega) h

theorem cursorInv_ite {cfg : Config} {b : Prop} [Decidable b] {c' : FrameContext}
    (h1 : CursorInv c') (h2 : CursorInv cfg.context) :
    CursorInv (if b then { cfg with context := c' } else cfg).context := by
  split
  · exact h1
  · exact h2

theorem cursorInv_searchFrame {c : FrameContext} (name : String)
    (h : CursorInv c) : CursorInv (searchFrame c name) := by
  cases hget : getActiveContext c with
  | none => unfold searchFrame; rw [hget]; exact h
  | some a =>
      rw [searchFrame_eq name hget]
      cases hfind : listIndexOf a.list name with
      | none => exact h
      | some i =>
          exact cursorInv_assignActive hget _ _ (listIndexOf_lt_length hfind) h

theorem cursorInv_onSchliessen {cfg : Config} (h : CursorInv cfg.context) :
    CursorInv (onSchliessen cfg).context := by
  obtain ⟨s, hist, c⟩ := cfg
  cases s with
  | Inaktiv => exact h
  | DienstAbgeschlossen => exact h
  | ArbeitsModus ch => exact cursorInv_enterInaktiv h
  | NotfallModus ch =>
      show CursorInv (if c.herkunftsZustand = "ArbeitsModus" then _ else
        if c.herkunftsZustand = "Inaktiv" then _ else _ : Config).context
      split
      · exact cursorInv_enterArbeitsChild (cursorInv_enterArbeitsModus h)
      · split
        · exact cursorInv_enterInaktiv h
        · exact h

/-- A dispatched event preserves the cursor discipline of every configuration. -/
theorem cursorInv_step (cfg : Config) (e : FrameEvent) (h : CursorInv cfg.context) :
    CursorInv (step cfg e).context := by
  obtain ⟨s, hist, c⟩ := cfg
  have hInit : CursorInv initialContext := by decide
  cases s with
  | DienstAbgeschlossen => cases e <;> exact h
  | Inaktiv =>
      cases e with
      | notfallEmpfangen l =>
          exact cursorInv_enterBestaetigen (cursorInv_enterNotfallModus
            (cursorInv_initNotfallModus l h))
      | zuruecksetzen => exact cursorInv_enterInaktiv hInit
      | ladeNeueListe l k =>
          cases k with
          | ENTITAET =>
              exact cursorInv_enterArbeitsChild (cursorInv_enterArbeitsModus
                (cursorInv_setNewList l _ h))
          | ALLGEMEIN =>
              exact cursorInv_enterArbeitsChild (cursorInv_enterArbeitsModus
                (cursorInv_setNewList l _ h))
      | ausschalten => exact cursorInv_enterDienst h
      | schliessen => exact h
      | naechsterFrame => exact h
      | vorherigerFrame => exact h
      | sucheFrame n => exact h
      | userBestaetigtNotfall b => exact h
  | ArbeitsModus ch =>
      cases e with
      | notfallEmpfangen l =>
          exact cursorInv_enterBestaetigen (cursorInv_enterNotfallModus
            (cursorInv_initNotfallModus l h))
      | zuruecksetzen => exact cursorInv_enterInaktiv hInit
      | schliessen => exact cursorInv_onSchliessen h
      | sucheFrame n => exact cursorInv_searchFrame n h
      | naechsterFrame => exact cursorInv_ite (cursorInv_frameNavigation 1 h) h
      | vorherigerFrame => exact cursorInv_ite (cursorInv_frameNavigation (-1) h) h
      | ladeNeueListe l k =>
          cases ch with
          | Entitaet =>
              cases k with
              | ALLGEMEIN =>
                  exact cursorInv_enterArbeitsChild (cursorInv_setNewList l _ h)
              | ENTITAET => exact cursorInv_ite (cursorInv_setNewList l _ h) h
          | Allgemein =>
              cases k with
              | ENTITAET =>
                  exact cursorInv_enterArbeitsChild (cursorInv_setNewList l _ h)
              | ALLGEMEIN => exact cursorInv_ite (cursorInv_setNewList l _ h) h
      | ausschalten => exact h
      | userBestaetigtNotfall b => exact h
  | NotfallModus ch =>
      cases ch with
      | Bestaetigen =>
          cases e with
          | notfallEmpfangen l =>
              exact cursorInv_enterBestaetigen (cursorInv_enterNotfallModus
                (cursorInv_initNotfallModus l h))
          | zuruecksetzen => exact cursorInv_enterInaktiv hInit
          | schliessen => exact cursorInv_onSchliessen h
          | userBestaetigtNotfall b =>
              cases b with
              | true => exact cursorInv_setAktuellerFrame h
              | false =>
                  exact @cursorInv_onSchliessen
                    ⟨.Inaktiv, hist, enterInaktiv c⟩ (cursorInv_enterInaktiv h)
          | naechsterFrame => exact h
          | vorherigerFrame => exact h
          | sucheFrame n => exact h
          | ladeNeueListe l k => exact h
          | ausschalten => exact h
      | Anzeigen =>
          cases e with
          | notfallEmpfangen l =>
              exact cursorInv_enterBestaetigen (cursorInv_enterNotfallModus
                (cursorInv_initNotfallModus l h))
          | zuruecksetzen => exact cursorInv_enterInaktiv hInit
          | schliessen => exact cursorInv_onSchliessen h
          | userBestaetigtNotfall b => exact h
          | naechsterFrame => exact cursorInv_ite (cursorInv_frameNavigation 1 h) h
          | vorherigerFrame => exact cursorInv_ite (cursorInv_frameNavigation (-1) h) h
          | sucheFrame n => exact cursorInv_searchFrame n h
          | ladeNeueListe l k => exact h
          | ausschalten => exact h

/-- Every reachable configuration satisfies the cursor discipline. -/
theorem reachable_cursorInv {cfg : Config} (h : Reachable cfg) :
    CursorInv cfg.context := by
  induction h with
  | init => decide
  | dispatch e _ ih => exact cursorInv_step _ e ih

@[simp] theorem assignActive_herkunft (c : FrameContext) (k : CursorKey)
    (idx : Nat) (f : String) :
    (assignActive c k idx f).herkunftsZustand = c.herkunftsZustand := by
  cases k <;> rfl

@[simp] theorem frameNavigation_herkunft (c : FrameContext) (d : Int) :
    (frameNavigation c d).herkunftsZustand = c.herkunftsZustand := by
  cases hget : getActiveContext c with
  | none => unfold frameNavigation; rw [hget]
  | some a =>
      rw [frameNavigation_eq d hget]
      split
      · rfl
      · simp

@[simp] theorem searchFrame_herkunft (c : FrameContext) (name : String) :
    (searchFrame c name).herkunftsZustand = c.herkunftsZustand := by
  cases hget : getActiveContext c with
  | none => unfold searchFrame; rw [hget]
  | some a =>
      rw [searchFrame_eq name hget]
      cases listIndexOf a.list name <;> simp

/-- Unfolding `onSchliessen` in `NotfallModus` as the guard cascade it is. -/
theorem onSchliessen_notfall (ch : NotfallChild) (hist : ArbeitsChild)
    (c : FrameContext) :
    onSchliessen ⟨.NotfallModus ch, hist, c⟩ =
      if c.herkunftsZustand = "ArbeitsModus" then
        ⟨.ArbeitsModus hist, hist, enterArbeitsChild hist (enterArbeitsModus c)⟩
      else if c.herkunftsZustand = "Inaktiv" then
        ⟨.Inaktiv, hist, enterInaktiv c⟩
      else ⟨.NotfallModus ch, hist, c⟩ := rfl

theorem herkunftInv_onSchliessen {cfg : Config} (h : HerkunftInv cfg) :
    HerkunftInv (onSchliessen cfg) := by
  obtain ⟨s, hist, c⟩ := cfg
  cases s with
  | Inaktiv => exact h
  | DienstAbgeschlossen => exact h
  | ArbeitsModus ch => exact rfl
  | NotfallModus ch =>
      rw [onSchliessen_notfall]
      split
      · rename_i hA
        show (enterArbeitsChild hist (enterArbeitsModus c)).herkunftsZustand
          = "ArbeitsModus"
        cases hist <;> rfl
      · split
        · exact rfl
        · exact h

/-- A dispatched event preserves the origin-state bookkeeping. -/
theorem herkunftInv_step (cfg : Config) (e : FrameEvent) (h : HerkunftInv cfg) :
    HerkunftInv (step cfg e) := by
  obtain ⟨s, hist, c⟩ := cfg
  cases s with
  | DienstAbgeschlossen => cases e <;> exact h
  | Inaktiv =>
      cases e with
      | notfallEmpfangen l => exact Or.inl h
      | zuruecksetzen => exact rfl
      | ladeNeueListe l k => cases k <;> exact rfl
      | ausschalten => exact trivial
      | schliessen => exact h
      | naechsterFrame => exact h
      | vorherigerFrame => exact h
      | sucheFrame n => exact h
      | userBestaetigtNotfall b => exact h
  | ArbeitsModus ch =>
      cases e with
      | notfallEmpfangen l => exact Or.inr h
      | zuruecksetzen => exact rfl
      | schliessen => exact rfl
      | sucheFrame n =>
          show (searchFrame c n).herkunftsZustand = "ArbeitsModus"
          rw [searchFrame_herkunft]
          exact h
      | naechsterFrame =>
          show HerkunftInv (if hasNextFrame c = true then _ else _ : Config)
          split
          · show (frameNavigation c 1).herkunftsZustand = "ArbeitsModus"
            rw [frameNavigation_herkunft]
            exact h
          · exact h
      | vorherigerFrame =>
          show HerkunftInv (if hasPreviousFrame c = true then _ else _ : Config)
          split
          · show (frameNavigation c (-1)).herkunftsZustand = "ArbeitsModus"
            rw [frameNavigation_herkunft]
            exact h
          · exact h
      | ladeNeueListe l k =>
          cases ch with
          | Entitaet =>
              cases k with
              | ALLGEMEIN => exact h
              | ENTITAET =>
                  show HerkunftInv
                    (if LadeKontext.toAnzeige .ENTITAET = c.anzeigeKontext
                     then _ else _ : Config)
                  split
                  · exact h
                  · exact h
          | Allgemein =>
              cases k with
              | ENTITAET => exact h
              | ALLGEMEIN =>
                  show HerkunftInv
                    (if LadeKontext.toAnzeige .ALLGEMEIN = c.anzeigeKontext
                     then _ else _ : Config)
                  split
                  · exact h
                  · exact h
      | ausschalten => exact h
      | userBestaetigtNotfall b => exact h
  | NotfallModus ch =>
      cases ch with
      | Bestaetigen =>
          cases e with
          | notfallEmpfangen l => exact h
          | zuruecksetzen => exact rfl
          | schliessen => exact herkunftInv_onSchliessen h
          | userBestaetigtNotfall b =>
              cases b with
              | true => exact h
              | false =>
                  exact @herkunftInv_onSchliessen
                    ⟨.Inaktiv, hist, enterInaktiv c⟩ rfl
          | naechsterFrame => exact h
          | vorherigerFrame => exact h
          | sucheFrame n => exact h
          | ladeNeueListe l k => exact h
          | ausschalten => exact h
      | Anzeigen =>
          cases e with
          | notfallEmpfangen l => exact h
          | zuruecksetzen => exact rfl
          | schliessen => exact herkunftInv_onSchliessen h
          | userBestaetigtNotfall b => exact h
          | naechsterFrame =>
              show HerkunftInv (if hasNextFrame c = true then _ else _ : Config)
              split
              · show (frameNavigation c 1).herkunftsZustand = "Inaktiv" ∨
                  (frameNavigation c 1).herkunftsZustand = "ArbeitsModus"
                rw [frameNavigation_herkunft]
                exact h
              · exact h
          | vorherigerFrame =>
              show HerkunftInv (if hasPreviousFrame c = true then _ else _ : Config)
              split
              · show (frameNavigation c (-1)).herkunftsZustand = "Inaktiv" ∨
                  (frameNavigation c (-1)).herkunftsZustand = "ArbeitsModus"
                rw [frameNavigation_herkunft]
                exact h
              · exact h
          | sucheFrame n =>
              show (searchFrame c n).herkunftsZustand = "Inaktiv" ∨
                (searchFrame c n).herkunftsZustand = "ArbeitsModus"
              rw [searchFrame_herkunft]
              exact h
          | ladeNeueListe l k => exact h
          | ausschalten => exact h

/-- Every reachable configuration has consistent origin-state bookkeeping. -/
theorem reachable_herkunftInv {cfg : Config} (h : Reachable cfg) :
    HerkunftInv cfg := by
  induction h with
  | init => decide
  | dispatch e _ ih => exact herkunftInv_step _ e ih

@[simp] theorem assignActive_anzeige (c : FrameContext) (k : CursorKey)
    (idx : Nat) (f : String) :
    (assignActive c k idx f).anzeigeKontext = c.anzeigeKontext := by
  cases k <;> rfl

@[simp] theorem frameNavigation_anzeige (c : FrameContext) (d : Int) :
    (frameNavigation c d).anzeigeKontext = c.anzeigeKontext := by
  cases hget : getActiveContext c with
  | none => unfold frameNavigation; rw [hget]
  | some a =>
      rw [frameNavigation_eq d hget]
      split
      · rfl
      · simp

@[simp] theorem searchFrame_anzeige (c : FrameContext) (name : String) :
    (searchFrame c name).anzeigeKontext = c.anzeigeKontext := by
  cases hget : getActiveContext c with
  | none => unfold searchFrame; rw [hget]
  | some a =>
      rw [searchFrame_eq name hget]
      cases listIndexOf a.list name <;> simp

@[simp] theorem setNewList_anzeige (c : FrameContext) (l : List String)
    (k : LadeKontext) : (setNewList c l k).anzeigeKontext = c.anzeigeKontext := by
  cases k <;> rfl

theorem anzeigeInv_onSchliessen {cfg : Config} (h : AnzeigeInv cfg) :
    AnzeigeInv (onSchliessen cfg) := by
  obtain ⟨s, hist, c⟩ := cfg
  cases s with
  | Inaktiv => exact h
  | DienstAbgeschlossen => exact h
  | ArbeitsModus ch => exact rfl
  | NotfallModus ch =>
      rw [onSchliessen_notfall]
      split
      · show (enterArbeitsChild hist (enterArbeitsModus c)).anzeigeKontext
          = hist.anzeige
        cases hist <;> rfl
      · split
        · exact rfl
        · exact h

/-- A dispatched event preserves the display-context bookkeeping. -/
theorem anzeigeInv_step (cfg : Config) (e : FrameEvent) (h : AnzeigeInv cfg) :
    AnzeigeInv (step cfg e) := by
  obtain ⟨s, hist, c⟩ := cfg
  cases s with
  | DienstAbgeschlossen => cases e <;> exact h
  | Inaktiv =>
      cases e with
      | notfallEmpfangen l => exact rfl
      | zuruecksetzen => exact rfl
      | ladeNeueListe l k => cases k <;> exact rfl
      | ausschalten => exact h
      | schliessen => exact h
      | naechsterFrame => exact h
      | vorherigerFrame => exact h
      | sucheFrame n => exact h
      | userBestaetigtNotfall b => exact h
  | ArbeitsModus ch =>
      cases e with
      | notfallEmpfangen l => exact rfl
      | zuruecksetzen => exact rfl
      | schliessen => exact rfl
      | sucheFrame n =>
          show (searchFrame c n).anzeigeKontext = ch.anzeige
          rw [searchFrame_anzeige]
          exact h
      | naechsterFrame =>
          show AnzeigeInv (if hasNextFrame c = true then _ else _ : Config)
          split
          · show (frameNavigation c 1).anzeigeKontext = ch.anzeige
            rw [frameNavigation_anzeige]
            exact h
          · exact h
      | vorherigerFrame =>
          show AnzeigeInv (if hasPreviousFrame c = true then _ else _ : Config)
          split
          · show (frameNavigation c (-1)).anzeigeKontext = ch.anzeige
            rw [frameNavigation_anzeige]
            exact h
          · exact h
      | ladeNeueListe l k =>
          cases ch with
          | Entitaet =>
              cases k with
              | ALLGEMEIN => exact rfl
              | ENTITAET =>
                  show AnzeigeInv
                    (if LadeKontext.toAnzeige .ENTITAET = c.anzeigeKontext
                     then _ else _ : Config)
                  split
                  · show (setNewList c l .ENTITAET).anzeigeKontext
                      = ArbeitsChild.anzeige .Entitaet
                    rw [setNewList_anzeige]
                    exact h
                  · exact h
          | Allgemein =>
              cases k with
              | ENTITAET => exact rfl
              | ALLGEMEIN =>
                  show AnzeigeInv
                    (if LadeKontext.toAnzeige .ALLGEMEIN = c.anzeigeKontext
                     then _ else _ : Config)
                  split
                  · show (setNewList c l .ALLGEMEIN).anzeigeKontext
                      = ArbeitsChild.anzeige .Allgemein
                    rw [setNewList_anzeige]
                    exact h
                  · exact h
      | ausschalten => exact h
      | userBestaetigtNotfall b => exact h
  | NotfallModus ch =>
      cases ch with
      | Bestaetigen =>
          cases e with
          | notfallEmpfangen l => exact rfl
          | zuruecksetzen => exact rfl
          | schliessen => exact anzeigeInv_onSchliessen h
          | userBestaetigtNotfall b =>
              cases b with
              | true =>
                  show (setAktuellerFrame c).anzeigeKontext = .NOTFALL
                  exact h
              | false =>
                  exact @anzeigeInv_onSchliessen
                    ⟨.Inaktiv, hist, enterInaktiv c⟩ rfl
          | naechsterFrame => exact h
          | vorherigerFrame => exact h
          | sucheFrame n => exact h
          | ladeNeueListe l k => exact h
          | ausschalten => exact h
      | Anzeigen =>
          cases e with
          | notfallEmpfangen l => exact rfl
          | zuruecksetzen => exact rfl
          | schliessen => exact anzeigeInv_onSchliessen h
          | userBestaetigtNotfall b => exact h
          | naechsterFrame =>
              show AnzeigeInv (if hasNextFrame c = true then _ else _ : Config)
              split
              · show (frameNavigation c 1).anzeigeKontext = .NOTFALL
                rw [frameNavigation_anzeige]
                exact h
              · exact h
          | vorherigerFrame =>
              show AnzeigeInv (if hasPreviousFrame c = true then _ else _ : Config)
              split
              · show (frameNavigation c (-1)).anzeigeKontext = .NOTFALL
                rw [frameNavigation_anzeige]
                exact h
              · exact h
          | sucheFrame n =>
              show (searchFrame c n).anzeigeKontext = .NOTFALL
              rw [searchFrame_anzeige]
              exact h
          | ladeNeueListe l k => exact h
          | ausschalten => exact h

/-- Every reachable configuration has consistent display-context bookkeeping. -/
theorem reachable_anzeigeInv {cfg : Config} (h : Reachable cfg) :
    AnzeigeInv cfg := by
  induction h with
  | init => decide
  | dispatch e _ ih => exact anzeigeInv_step _ e ih

theorem storeLookup_eq_none_of_whitespace {id : String}
    (hws : trimEmpty id = true) :
    ∀ st : SessionStore, StoreWF st → storeLookup st id = none := by
  intro st
  induction st with
  | nil => intro _; rfl
  | cons p rest ih =>
      intro hwf
      have hp : trimEmpty p.1 = false := hwf p (List.mem_cons_self p rest)
      have hne : (p.1 == id) = false := by
        rw [beq_eq_false_iff_ne]
        intro hEq
        rw [hEq, hws] at hp
        cases hp
      unfold storeLookup
      rw [List.find?_cons_of_neg _ (by simp [hne])]
      exact ih (fun q hq => hwf q (List.mem_cons_of_mem p hq))

theorem storeWF_storeSet {st : SessionStore} {id : String} (cfg : Config)
    (hwf : StoreWF st) (hid : trimEmpty id = false) :
    StoreWF (storeSet st id cfg) := by
  intro q hq
  rcases List.mem_cons.mp hq with h | h
  · rw [h]; exact hid
  · exact hwf q (List.mem_of_mem_filter h)

theorem createSession_storeWF {st st' : SessionStore} {sessionId : String}
    {snap : CleanSnapshot} (hwf : StoreWF st)
    (h : createSession st sessionId = .ok (st', snap)) : StoreWF st' := by
  unfold createSession at h
  split at h
  · cases h
  · rename_i hcond
    rw [not_or] at hcond
    simp only [Except.ok.injEq, Prod.mk.injEq] at h
    obtain ⟨h1, _⟩ := h
    rw [← h1]
    refine storeWF_storeSet initialConfig hwf ?_
    have h2 := hcond.2
    revert h2
    cases trimEmpty sessionId <;> simp

theorem storeLookup_key_not_blank {st : SessionStore} {id : String} {cfg : Config}
    (hwf : StoreWF st) (h : storeLookup st id = some cfg) :
    trimEmpty id = false := by
  unfold storeLookup at h
  cases hfind : st.find? (fun p => p.1 == id) with
  | none => rw [hfind] at h; cases h
  | some q =>
      have hq : q ∈ st := List.mem_of_find?_eq_some hfind
      have hqid := List.find?_some hfind
      have hqid2 : q.1 = id := eq_of_beq hqid
      rw [← hqid2]
      exact hwf q hq

theorem sendEvent_storeWF {st st' : SessionStore} {sessionId : String}
    {input : DispatchInput} {snap : CleanSnapshot} (hwf : StoreWF st)
    (h : sendEvent st sessionId input = .ok (st', snap)) : StoreWF st' := by
  unfold sendEvent at h
  split at h
  · cases h
  · cases input with
    | missing => cases h
    | noType => cases h
    | known e =>
        cases hlook : storeLookup st sessionId with
        | none => rw [hlook] at h; cases h
        | some cfg =>
            rw [hlook] at h
            simp only [Except.ok.injEq, Prod.mk.injEq] at h
            obtain ⟨h1, _⟩ := h
            rw [← h1]
            exact storeWF_storeSet _ hwf (storeLookup_key_not_blank hwf hlook)
    | unknownType t =>
        cases hlook : storeLookup st sessionId with
        | none => rw [hlook] at h; cases h
        | some cfg =>
            rw [hlook] at h
            simp only [Except.ok.injEq, Prod.mk.injEq] at h
            obtain ⟨h1, _⟩ := h
            rw [← h1]
            exact hwf

theorem hasNextFrame_eq {c : FrameContext} {a : ActiveSelection}
    (hget : getActiveContext c = some a) :
    hasNextFrame c
      = (a.list.length != 0 && decide (a.index < a.list.length - 1)) := by
  unfold hasNextFrame
  rw [hget]

theorem hasPreviousFrame_eq {c : FrameContext} {a : ActiveSelection}
    (hget : getActiveContext c = some a) :
    hasPreviousFrame c = (a.list.length != 0 && decide (a.index > 0)) := by
  unfold hasPreviousFrame
  rw [hget]

theorem hasNextFrame_false_of {c : FrameContext} {a : ActiveSelection}
    (hget : getActiveContext c = some a)
    (hcase : a.list = [] ∨ a.index + 1 = a.list.length) :
    hasNextFrame c = false := by
  rw [hasNextFrame_eq hget]
  rcases hcase with hl | hlast
  · simp [hl]
  · have hno : ¬ (a.index < a.list.length - 1) := by omega
    simp [hno]

theorem hasPreviousFrame_false_of {c : FrameContext} {a : ActiveSelection}
    (hget : getActiveContext c = some a)
    (hcase : a.list = [] ∨ a.index = 0) : hasPreviousFrame c = false := by
  rw [hasPreviousFrame_eq hget]
  rcases hcase with hl | h0
  · simp [hl]
  · simp [h0]

theorem hasNextFrame_true_of {c : FrameContext} {a : ActiveSelection}
    (hget : getActiveContext c = some a)
    (hlt : a.index + 1 < a.list.length) : hasNextFrame c = true := by
  rw [hasNextFrame_eq hget]
  simp only [Bool.and_eq_true, bne_iff_ne, ne_eq, decide_eq_true_eq]
  omega

theorem hasPreviousFrame_true_of {c : FrameContext} {a : ActiveSelection}
    (hget : getActiveContext c = some a) (hpos : a.index ≠ 0)
    (hlen : a.list ≠ []) : hasPreviousFrame c = true := by
  rw [hasPreviousFrame_eq hget]
  simp only [Bool.and_eq_true, bne_iff_ne, ne_eq, decide_eq_true_eq]
  exact ⟨fun h => hlen (List.length_eq_zero.mp h), Nat.pos_of_ne_zero hpos⟩

theorem frameNavigation_next {c : FrameContext} {a : ActiveSelection}
    (hget : getActiveContext c = some a)
    (hlt : a.index + 1 < a.list.length) :
    frameNavigation c 1
      = assignActive c a.key (a.index + 1)
          ((a.list.get? (a.index + 1)).getD LEERER_FRAME) := by
  rw [frameNavigation_eq 1 hget, if_neg (by omega)]
  have htn : ((a.index : Int) + 1).toNat = a.index + 1 := by omega
  rw [htn]

theorem frameNavigation_prev {c : FrameContext} {a : ActiveSelection}
    (hget : getActiveContext c = some a) (hpos : a.index ≠ 0)
    (hlt : a.index - 1 < a.list.length) :
    frameNavigation c (-1)
      = assignActive c a.key (a.index - 1)
          ((a.list.get? (a.index - 1)).getD LEERER_FRAME) := by
  rw [frameNavigation_eq (-1) hget, if_neg (by omega)]
  have htn : ((a.index : Int) + (-1)).toNat = a.index - 1 := by omega
  rw [htn]

/-!
## Claims
-/

/-- C1: the claim states that in `EmergencyMode.Confirm`, rejecting the
emergency (`emergencyConfirmed(accepted = false)`) behaves exactly like
dispatching `close`.  The code contradicts this when `originState = WORK_MODE`:
the rejection transition carries the explicit target `#frameMachine.Inaktiv`,
so the machine lands in `Inaktiv`, and the `raise`d `SCHLIESSEN` is only
delivered afterwards, in `Inaktiv`, where it is unhandled (dead code); a real
`close` from the same configuration resumes `WorkMode`'s history child.  This
theorem evaluates both paths at the failing input. -/
theorem C1_reject_differs_from_close :
    (step (step initialConfig (.ladeNeueListe ["E1"] .ENTITAET))
        (.notfallEmpfangen ["A1"])).state = .NotfallModus .Bestaetigen ∧
    (step (step initialConfig (.ladeNeueListe ["E1"] .ENTITAET))
        (.notfallEmpfangen ["A1"])).context.herkunftsZustand = "ArbeitsModus" ∧
    (step (step (step initialConfig (.ladeNeueListe ["E1"] .ENTITAET))
        (.notfallEmpfangen ["A1"])) (.userBestaetigtNotfall false)).state
      = .Inaktiv ∧
    (step (step (step initialConfig (.ladeNeueListe ["E1"] .ENTITAET))
        (.notfallEmpfangen ["A1"])) .schliessen).state
      = .ArbeitsModus .Entitaet ∧
    step (step (step initialConfig (.ladeNeueListe ["E1"] .ENTITAET))
        (.notfallEmpfangen ["A1"])) (.userBestaetigtNotfall false) ≠
      step (step (step initialConfig (.ladeNeueListe ["E1"] .ENTITAET))
        (.notfallEmpfangen ["A1"])) .schliessen := by
  decide

/-- C4 (counterexample): the claim demands `originState = WORK_MODE` whenever
`emergencyReceived` arrives in any state other than `Inactive`, including when
the machine is already in `EmergencyMode`.  But `initNotfallModus` never writes
`herkunftsZustand`; an emergency received while already in `EmergencyMode`
keeps the stored origin.  From `Inactive`, two consecutive `emergencyReceived`
dispatches leave `originState = INACTIVE`, not `WORK_MODE`. -/
theorem C4_counterexample :
    (step initialConfig (.notfallEmpfangen ["A1"])).state
      = .NotfallModus .Bestaetigen ∧
    (step initialConfig (.notfallEmpfangen ["A1"])).state ≠ .Inaktiv ∧
    (step (step initialConfig (.notfallEmpfangen ["A1"]))
        (.notfallEmpfangen ["B1"])).context.herkunftsZustand = "Inaktiv" ∧
    (step (step initialConfig (.notfallEmpfangen ["A1"]))
        (.notfallEmpfangen ["B1"])).context.herkunftsZustand
      ≠ "ArbeitsModus" := by
  decide

/-- C4 (amended): `emergencyReceived(list)` from any non-final state replaces
`emergencyList` by `list`, resets its cursor to 0, sets `displayContext =
EMERGENCY` and `currentFrame = CONFIRM_FRAME`, and moves to
`EmergencyMode.Confirm`; `originState` is left untouched by the event itself,
so (with consistent bookkeeping) it reads `INACTIVE` when the machine was in
`Inactive`, `WORK_MODE` when it was in `WorkMode`, and keeps its previous
value when the machine was already in `EmergencyMode`. -/
theorem C4_amended_emergency_received (cfg : Config) (l : List String)
    (hfin : cfg.state ≠ .DienstAbgeschlossen) :
    (step cfg (.notfallEmpfangen l)).state = .NotfallModus .Bestaetigen ∧
    (step cfg (.notfallEmpfangen l)).context.notfallListe = l ∧
    (step cfg (.notfallEmpfangen l)).context.aktuellerNotfallIndex = 0 ∧
    (step cfg (.notfallEmpfangen l)).context.anzeigeKontext = .NOTFALL ∧
    (step cfg (.notfallEmpfangen l)).context.aktuellerFrame
      = BESTAETIGUNG_FRAME ∧
    (step cfg (.notfallEmpfangen l)).context.herkunftsZustand
      = cfg.context.herkunftsZustand ∧
    (HerkunftInv cfg → cfg.state = .Inaktiv →
      (step cfg (.notfallEmpfangen l)).context.herkunftsZustand = "Inaktiv") ∧
    (HerkunftInv cfg → ∀ ch, cfg.state = .ArbeitsModus ch →
      (step cfg (.notfallEmpfangen l)).context.herkunftsZustand
        = "ArbeitsModus") := by
  obtain ⟨s, hist, c⟩ := cfg
  cases s with
  | DienstAbgeschlossen => exact absurd rfl hfin
  | Inaktiv =>
      refine ⟨rfl, rfl, rfl, rfl, rfl, rfl, ?_, ?_⟩
      · intro hinv _
        exact hinv
      · intro _ ch hch
        exact absurd hch (by simp)
  | ArbeitsModus ch0 =>
      refine ⟨rfl, rfl, rfl, rfl, rfl, rfl, ?_, ?_⟩
      · intro _ hst
        exact absurd hst (by simp)
      · intro hinv ch hch
        exact hinv
  | NotfallModus ch0 =>
      cases ch0 <;>
        · refine ⟨rfl, rfl, rfl, rfl, rfl, rfl, ?_, ?_⟩
          · intro _ hst
            exact absurd hst (by simp)
          · intro _ ch hch
            exact absurd hch (by simp)

theorem C4_amended_emergency_received_witness :
    initialConfig.state ≠ MachineState.DienstAbgeschlossen ∧
    (step initialConfig (.notfallEmpfangen ["A1"])).state
      = .NotfallModus .Bestaetigen :=
  ⟨by decide, (C4_amended_emergency_received initialConfig ["A1"] (by decide)).1⟩

/-- C5: in every configuration reachable from the initial one by dispatched
events, each of the three cursors is strictly below its list's length when the
list is non-empty and equal to 0 when the list is empty. -/
theorem C5_cursor_invariant {cfg : Config} (h : Reachable cfg) :
    CursorInv cfg.context := by
  induction h with
  | init => decide
  | dispatch e _ ih => exact cursorInv_step _ e ih

theorem C5_cursor_invariant_witness :
    Reachable (step initialConfig (.ladeNeueListe ["E1", "E2"] .ENTITAET)) ∧
    CursorInv (step initialConfig
      (.ladeNeueListe ["E1", "E2"] .ENTITAET)).context :=
  ⟨Reachable.dispatch _ Reachable.init,
   C5_cursor_invariant (Reachable.dispatch _ Reachable.init)⟩

/-- C9: a `loadList(list, ctx)` dispatched in `WorkMode` whose `ctx` equals the
current `displayContext` hits the targetless re-entering transition on
`ArbeitsModus`: the child state is unchanged, the targeted sequence is replaced
by `list` with cursor 0 and `currentFrame = list[0]` (`EMPTY_FRAME` when `list`
is empty), and the non-targeted sequence, its cursor, the emergency data, the
display context and the origin are all untouched. -/
theorem C9_same_context_reload (cfg : Config) (ch : ArbeitsChild)
    (list : List String) (kontext : LadeKontext)
    (hstate : cfg.state = .ArbeitsModus ch)
    (hanz : cfg.context.anzeigeKontext = ch.anzeige)
    (hsame : kontext.toAnzeige = cfg.context.anzeigeKontext) :
    (step cfg (.ladeNeueListe list kontext)).state = cfg.state ∧
    (step cfg (.ladeNeueListe list kontext)).history = cfg.history ∧
    (step cfg (.ladeNeueListe list kontext)).context.aktuellerFrame
      = list.headD LEERER_FRAME ∧
    (kontext = .ENTITAET →
      (step cfg (.ladeNeueListe list kontext)).context.entitaetListe = list ∧
      (step cfg (.ladeNeueListe list kontext)).context.aktuellerEntitaetIndex
        = 0 ∧
      (step cfg (.ladeNeueListe list kontext)).context.allgemeineListe
        = cfg.context.allgemeineListe ∧
      (step cfg (.ladeNeueListe list kontext)).context.aktuellerAllgemeinIndex
        = cfg.context.aktuellerAllgemeinIndex) ∧
    (kontext = .ALLGEMEIN →
      (step cfg (.ladeNeueListe list kontext)).context.allgemeineListe = list ∧
      (step cfg (.ladeNeueListe list kontext)).context.aktuellerAllgemeinIndex
        = 0 ∧
      (step cfg (.ladeNeueListe list kontext)).context.entitaetListe
        = cfg.context.entitaetListe ∧
      (step cfg (.ladeNeueListe list kontext)).context.aktuellerEntitaetIndex
        = cfg.context.aktuellerEntitaetIndex) ∧
    (step cfg (.ladeNeueListe list kontext)).context.anzeigeKontext
      = cfg.context.anzeigeKontext ∧
    (step cfg (.ladeNeueListe list kontext)).context.herkunftsZustand
      = cfg.context.herkunftsZustand := by
  obtain ⟨s, hist, c⟩ := cfg
  replace hstate : s = .ArbeitsModus ch := hstate
  subst hstate
  cases ch with
  | Entitaet =>
      cases kontext with
      | ENTITAET =>
          have hred : step ⟨.ArbeitsModus .Entitaet, hist, c⟩
              (.ladeNeueListe list .ENTITAET)
              = ⟨.ArbeitsModus .Entitaet, hist, setNewList c list .ENTITAET⟩ := by
            show (if LadeKontext.toAnzeige .ENTITAET = c.anzeigeKontext
                  then ⟨.ArbeitsModus .Entitaet, hist, setNewList c list .ENTITAET⟩
                  else ⟨.ArbeitsModus .Entitaet, hist, c⟩ : Config) = _
            rw [if_pos hsame]
          rw [hred]
          exact ⟨rfl, rfl, rfl,
            fun _ => ⟨rfl, rfl, rfl, rfl⟩,
            fun hk => absurd hk (by decide), rfl, rfl⟩
      | ALLGEMEIN =>
          rw [hanz] at hsame
          exact absurd hsame (by decide)
  | Allgemein =>
      cases kontext with
      | ALLGEMEIN =>
          have hred : step ⟨.ArbeitsModus .Allgemein, hist, c⟩
              (.ladeNeueListe list .ALLGEMEIN)
              = ⟨.ArbeitsModus .Allgemein, hist, setNewList c list .ALLGEMEIN⟩ := by
            show (if LadeKontext.toAnzeige .ALLGEMEIN = c.anzeigeKontext
                  then ⟨.ArbeitsModus .Allgemein, hist, setNewList c list .ALLGEMEIN⟩
                  else ⟨.ArbeitsModus .Allgemein, hist, c⟩ : Config) = _
            rw [if_pos hsame]
          rw [hred]
          exact ⟨rfl, rfl, rfl,
            fun hk => absurd hk (by decide),
            fun _ => ⟨rfl, rfl, rfl, rfl⟩, rfl, rfl⟩
      | ENTITAET =>
          rw [hanz] at hsame
          exact absurd hsame (by decide)

theorem C9_same_context_reload_witness :
    (step initialConfig (.ladeNeueListe ["E1", "E2"] .ENTITAET)).state
      = .ArbeitsModus .Entitaet ∧
    (step initialConfig
        (.ladeNeueListe ["E1", "E2"] .ENTITAET)).context.anzeigeKontext
      = ArbeitsChild.anzeige .Entitaet ∧
    (step (step initialConfig (.ladeNeueListe ["E1", "E2"] .ENTITAET))
        (.ladeNeueListe ["X1"] .ENTITAET)).context.entitaetListe = ["X1"] :=
  ⟨by decide, by decide,
   ((C9_same_context_reload _ .Entitaet ["X1"] .ENTITAET (by decide) (by decide)
      (by decide)).2.2.2.1 rfl).1⟩

/-- C10: while the machine is in `EmergencyMode.Confirm`, dispatching `next`,
`previous`, `search(name)`, `loadList(list, ctx)` or `shutdown` leaves the
configuration (state, history and context, hence `currentFrame =
CONFIRM_FRAME`) exactly unchanged, so only `emergencyConfirmed`, `close`,
`emergencyReceived` and `reset` can change the configuration from `Confirm`. -/
theorem C10_confirm_ignores_events (cfg : Config)
    (h : cfg.state = .NotfallModus .Bestaetigen) :
    step cfg .naechsterFrame = cfg ∧
    step cfg .vorherigerFrame = cfg ∧
    (∀ name, step cfg (.sucheFrame name) = cfg) ∧
    (∀ list kontext, step cfg (.ladeNeueListe list kontext) = cfg) ∧
    step cfg .ausschalten = cfg := by
  obtain ⟨s, hist, c⟩ := cfg
  replace h : s = .NotfallModus .Bestaetigen := h
  subst h
  exact ⟨rfl, rfl, fun _ => rfl, fun _ _ => rfl, rfl⟩

theorem C10_confirm_ignores_events_witness :
    (step initialConfig (.notfallEmpfangen ["A1"])).state
      = .NotfallModus .Bestaetigen ∧
    step (step initialConfig (.notfallEmpfangen ["A1"])) .naechsterFrame
      = step initialConfig (.notfallEmpfangen ["A1"]) :=
  ⟨by decide, (C10_confirm_ignores_events _ (by decide)).1⟩

/-- C2 (counterexample): `sendEvent` only checks that the event and its `type`
discriminant exist, not that the discriminant is recognized.  Dispatching an
event with the defined but unrecognized discriminant `"UNBEKANNT"` to an
existing session does not fail `InvalidArgument`: it is delivered, ignored by
the machine, and the unchanged snapshot is returned. -/
theorem C2_counterexample :
    createSession [] "s1"
      = .ok ([("s1", initialConfig)], cleanSnapshot initialConfig "s1") ∧
    sendEvent [("s1", initialConfig)] "s1" (.unknownType "UNBEKANNT")
      = .ok ([("s1", initialConfig)], cleanSnapshot initialConfig "s1") :=
  ⟨rfl, rfl⟩

/-- C2 (amended): `dispatch(id, event)` fails `InvalidArgument` when `id` is
empty, the event is missing, or its `type` discriminant is undefined; with a
defined discriminant it fails `NotFound` when no session `id` exists; a
recognized event is delivered to the machine to full completion and the
resulting snapshot stored and returned; an event whose defined discriminant is
not one of the nine recognized variants is nevertheless accepted — it is
delivered, matches no transition, and the unchanged snapshot is returned. -/
theorem C2_amended_dispatch (st : SessionStore) (id : String)
    (input : DispatchInput) :
    (id = "" →
      sendEvent st id input = .error (.invalidArgument invalidInputMsg)) ∧
    (input = .missing ∨ input = .noType →
      sendEvent st id input = .error (.invalidArgument invalidInputMsg)) ∧
    (id ≠ "" → storeLookup st id = none → input ≠ .missing → input ≠ .noType →
      sendEvent st id input = .error (.notFound (notFoundMsg id))) ∧
    (∀ e cfg, id ≠ "" → input = .known e → storeLookup st id = some cfg →
      sendEvent st id input
        = .ok (storeSet st id (step cfg e), cleanSnapshot (step cfg e) id)) ∧
    (∀ t cfg, id ≠ "" → input = .unknownType t → storeLookup st id = some cfg →
      sendEvent st id input = .ok (st, cleanSnapshot cfg id)) := by
  unfold sendEvent
  by_cases hid : id = ""
  · rw [if_pos hid]
    refine ⟨fun _ => rfl, fun _ => rfl, ?_, ?_, ?_⟩
    · intro hne
      exact absurd hid hne
    · intro e cfg hne _ _
      exact absurd hid hne
    · intro t cfg hne _ _
      exact absurd hid hne
  · rw [if_neg hid]
    cases input with
    | missing =>
        refine ⟨fun h0 => absurd h0 hid, fun _ => rfl, ?_, ?_, ?_⟩
        · intro _ _ hm _
          exact absurd rfl hm
        · intro e cfg _ hEq _
          cases hEq
        · intro t cfg _ hEq _
          cases hEq
    | noType =>
        refine ⟨fun h0 => absurd h0 hid, fun _ => rfl, ?_, ?_, ?_⟩
        · intro _ _ _ hm
          exact absurd rfl hm
        · intro e cfg _ hEq _
          cases hEq
        · intro t cfg _ hEq _
          cases hEq
    | known e0 =>
        refine ⟨fun h0 => absurd h0 hid, ?_, ?_, ?_, ?_⟩
        · intro h
          rcases h with h | h <;> cases h
        · intro _ hlook _ _
          rw [hlook]
        · intro e cfg _ hEq hlook
          injection hEq with hEq
          subst hEq
          rw [hlook]
        · intro t cfg _ hEq _
          cases hEq
    | unknownType t0 =>
        refine ⟨fun h0 => absurd h0 hid, ?_, ?_, ?_, ?_⟩
        · intro h
          rcases h with h | h <;> cases h
        · intro _ hlook _ _
          rw [hlook]
        · intro e cfg _ hEq _
          cases hEq
        · intro t cfg _ hEq hlook
          injection hEq with hEq
          subst hEq
          rw [hlook]

theorem C2_amended_dispatch_witness :
    ("s1" : String) ≠ "" ∧
    storeLookup [("s1", initialConfig)] "s1" = some initialConfig ∧
    sendEvent [("s1", initialConfig)] "s1" (.unknownType "UNBEKANNT")
      = .ok ([("s1", initialConfig)], cleanSnapshot initialConfig "s1") :=
  ⟨by decide, rfl,
   (C2_amended_dispatch [("s1", initialConfig)] "s1"
      (.unknownType "UNBEKANNT")).2.2.2.2 "UNBEKANNT" initialConfig
      (by decide) rfl rfl⟩

/-- C3 (counterexample): the whitespace-only id `" "` is accepted by the falsy
guard `!sessionId` of `getSession`/`getSessionState`: `get` reports the session
as absent (no error) and `stateOf` fails `NotFound` — neither fails
`InvalidArgument` as the claim demands. -/
theorem C3_counterexample :
    trimEmpty " " = true ∧ (" " : String) ≠ "" ∧
    getSession [("s1", initialConfig)] " " = .ok none ∧
    getSessionState [("s1", initialConfig)] " "
      = .error (.notFound (notFoundMsg " ")) :=
  ⟨by decide, by decide, rfl, rfl⟩

/-- C3 (amended): only the empty id makes `get`/`stateOf` fail
`InvalidArgument` (the JS guard `!sessionId` rejects just the empty string).
A non-empty whitespace-only id behaves like any other unknown id: since
`create` rejects whitespace ids no such session can exist, so `get` reports
"absent" and `stateOf` fails `NotFound`. -/
theorem C3_amended_whitespace_ids (st : SessionStore) (id : String)
    (hwf : StoreWF st) (hws : trimEmpty id = true) (hne : id ≠ "") :
    getSession st id = .ok none ∧
    getSessionState st id = .error (.notFound (notFoundMsg id)) ∧
    getSession st "" = .error (.invalidArgument invalidIdMsg) ∧
    getSessionState st "" = .error (.invalidArgument invalidIdMsg) := by
  have hlook : storeLookup st id = none :=
    storeLookup_eq_none_of_whitespace hws st hwf
  refine ⟨?_, ?_, rfl, rfl⟩
  · unfold getSession
    rw [if_neg hne, hlook]
  · unfold getSessionState
    rw [if_neg hne, hlook]

/-- C6 (counterexample): the claim says close with `originState = WORK_MODE`
resumes with "currentFrame recomputed to the element at that cursor".  With
`entityList = [""]` and cursor 0 the element at the cursor is `""`, but the
entry action's falsy check turns the frame into `LEERER_FRAME` instead. -/
theorem C6_counterexample :
    (step (step (step initialConfig (.ladeNeueListe [""] .ENTITAET))
        (.notfallEmpfangen ["A1"])) .schliessen).state
      = .ArbeitsModus .Entitaet ∧
    (step (step (step initialConfig (.ladeNeueListe [""] .ENTITAET))
        (.notfallEmpfangen ["A1"])) .schliessen).context.entitaetListe
      = [""] ∧
    (step (step (step initialConfig (.ladeNeueListe [""] .ENTITAET))
        (.notfallEmpfangen ["A1"])) .schliessen).context.aktuellerEntitaetIndex
      = 0 ∧
    ([""] : List String).get? 0 = some "" ∧
    (step (step (step initialConfig (.ladeNeueListe [""] .ENTITAET))
        (.notfallEmpfangen ["A1"])) .schliessen).context.aktuellerFrame
      = LEERER_FRAME ∧
    (step (step (step initialConfig (.ladeNeueListe [""] .ENTITAET))
        (.notfallEmpfangen ["A1"])) .schliessen).context.aktuellerFrame
      ≠ "" := by
  decide

/-- C6 (amended): while the machine is in `EmergencyMode` (with emergency
display context), every event except `reset` leaves `entityList`,
`generalList`, both their cursors and the recorded history child untouched;
and `close` with `originState = WORK_MODE` resumes exactly the recorded
`WorkMode` child with its display context, recomputing `currentFrame` from the
resumed list at the preserved cursor — the element itself when present and
non-empty, but `EMPTY_FRAME` when the cursor is out of range or the element is
the (falsy) empty string. -/
theorem C6_amended_interruption_roundtrip (cfg : Config) (ch : NotfallChild)
    (hstate : cfg.state = .NotfallModus ch)
    (hanz : cfg.context.anzeigeKontext = .NOTFALL) :
    (∀ e, e ≠ .zuruecksetzen →
      (step cfg e).context.entitaetListe = cfg.context.entitaetListe ∧
      (step cfg e).context.allgemeineListe = cfg.context.allgemeineListe ∧
      (step cfg e).context.aktuellerEntitaetIndex
        = cfg.context.aktuellerEntitaetIndex ∧
      (step cfg e).context.aktuellerAllgemeinIndex
        = cfg.context.aktuellerAllgemeinIndex ∧
      (step cfg e).history = cfg.history) ∧
    (cfg.context.herkunftsZustand = "ArbeitsModus" →
      (step cfg .schliessen).state = .ArbeitsModus cfg.history ∧
      (step cfg .schliessen).context.anzeigeKontext = cfg.history.anzeige ∧
      ((resumedList cfg).get? (resumedIndex cfg) = none →
        (step cfg .schliessen).context.aktuellerFrame = LEERER_FRAME) ∧
      (∀ f, (resumedList cfg).get? (resumedIndex cfg) = some f →
        (step cfg .schliessen).context.aktuellerFrame
          = if f = "" then LEERER_FRAME else f)) := by
  obtain ⟨s, hist, c⟩ := cfg
  replace hstate : s = .NotfallModus ch := hstate
  subst hstate
  replace hanz : c.anzeigeKontext = .NOTFALL := hanz
  have hget : getActiveContext c
      = some ⟨c.notfallListe, c.aktuellerNotfallIndex, .notfall⟩ := by
    unfold getActiveContext
    rw [hanz]
  have hnav : ∀ d : Int,
      (frameNavigation c d).entitaetListe = c.entitaetListe ∧
      (frameNavigation c d).allgemeineListe = c.allgemeineListe ∧
      (frameNavigation c d).aktuellerEntitaetIndex
        = c.aktuellerEntitaetIndex ∧
      (frameNavigation c d).aktuellerAllgemeinIndex
        = c.aktuellerAllgemeinIndex := by
    intro d
    rw [frameNavigation_eq d hget]
    split
    · exact ⟨rfl, rfl, rfl, rfl⟩
    · exact ⟨rfl, rfl, rfl, rfl⟩
  have hsearch : ∀ n : String,
      (searchFrame c n).entitaetListe = c.entitaetListe ∧
      (searchFrame c n).allgemeineListe = c.allgemeineListe ∧
      (searchFrame c n).aktuellerEntitaetIndex = c.aktuellerEntitaetIndex ∧
      (searchFrame c n).aktuellerAllgemeinIndex
        = c.aktuellerAllgemeinIndex := by
    intro n
    rw [searchFrame_eq n hget]
    dsimp only
    cases listIndexOf c.notfallListe n
    · exact ⟨rfl, rfl, rfl, rfl⟩
    · exact ⟨rfl, rfl, rfl, rfl⟩
  have hclose : ∀ ch0 : NotfallChild, c.herkunftsZustand = "ArbeitsModus" →
      step ⟨.NotfallModus ch0, hist, c⟩ .schliessen
        = ⟨.ArbeitsModus hist, hist,
           enterArbeitsChild hist (enterArbeitsModus c)⟩ := by
    intro ch0 hA
    have hs : step ⟨.NotfallModus ch0, hist, c⟩ .schliessen
        = onSchliessen ⟨.NotfallModus ch0, hist, c⟩ := by
      cases ch0 <;> rfl
    rw [hs, onSchliessen_notfall, if_pos hA]
  constructor
  · intro e he
    cases ch with
    | Bestaetigen =>
        cases e with
        | zuruecksetzen => exact absurd rfl he
        | notfallEmpfangen l => exact ⟨rfl, rfl, rfl, rfl, rfl⟩
        | schliessen =>
            have hs : step ⟨.NotfallModus .Bestaetigen, hist, c⟩ .schliessen
                = onSchliessen ⟨.NotfallModus .Bestaetigen, hist, c⟩ := rfl
            rw [hs, onSchliessen_notfall]
            split
            · cases hist <;> exact ⟨rfl, rfl, rfl, rfl, rfl⟩
            · split
              · exact ⟨rfl, rfl, rfl, rfl, rfl⟩
              · exact ⟨rfl, rfl, rfl, rfl, rfl⟩
        | userBestaetigtNotfall b =>
            cases b with
            | true => exact ⟨rfl, rfl, rfl, rfl, rfl⟩
            | false => exact ⟨rfl, rfl, rfl, rfl, rfl⟩
        | naechsterFrame => exact ⟨rfl, rfl, rfl, rfl, rfl⟩
        | vorherigerFrame => exact ⟨rfl, rfl, rfl, rfl, rfl⟩
        | sucheFrame n => exact ⟨rfl, rfl, rfl, rfl, rfl⟩
        | ladeNeueListe l k => exact ⟨rfl, rfl, rfl, rfl, rfl⟩
        | ausschalten => exact ⟨rfl, rfl, rfl, rfl, rfl⟩
    | Anzeigen =>
        cases e with
        | zuruecksetzen => exact absurd rfl he
        | notfallEmpfangen l => exact ⟨rfl, rfl, rfl, rfl, rfl⟩
        | schliessen =>
            have hs : step ⟨.NotfallModus .Anzeigen, hist, c⟩ .schliessen
                = onSchliessen ⟨.NotfallModus .Anzeigen, hist, c⟩ := rfl
            rw [hs, onSchliessen_notfall]
            split
            · cases hist <;> exact ⟨rfl, rfl, rfl, rfl, rfl⟩
            · split
              · exact ⟨rfl, rfl, rfl, rfl, rfl⟩
              · exact ⟨rfl, rfl, rfl, rfl, rfl⟩
        | userBestaetigtNotfall b => exact ⟨rfl, rfl, rfl, rfl, rfl⟩
        | naechsterFrame =>
            have hs : step ⟨.NotfallModus .Anzeigen, hist, c⟩ .naechsterFrame
                = if hasNextFrame c = true
                  then ⟨.NotfallModus .Anzeigen, hist, frameNavigation c 1⟩
                  else ⟨.NotfallModus .Anzeigen, hist, c⟩ := rfl
            rw [hs]
            split
            · obtain ⟨e1, e2, e3, e4⟩ := hnav 1
              exact ⟨e1, e2, e3, e4, rfl⟩
            · exact ⟨rfl, rfl, rfl, rfl, rfl⟩
        | vorherigerFrame =>
            have hs : step ⟨.NotfallModus .Anzeigen, hist, c⟩ .vorherigerFrame
                = if hasPreviousFrame c = true
                  then ⟨.NotfallModus .Anzeigen, hist, frameNavigation c (-1)⟩
                  else ⟨.NotfallModus .Anzeigen, hist, c⟩ := rfl
            rw [hs]
            split
            · obtain ⟨e1, e2, e3, e4⟩ := hnav (-1)
              exact ⟨e1, e2, e3, e4, rfl⟩
            · exact ⟨rfl, rfl, rfl, rfl, rfl⟩
        | sucheFrame n =>
            obtain ⟨e1, e2, e3, e4⟩ := hsearch n
            exact ⟨e1, e2, e3, e4, rfl⟩
        | ladeNeueListe l k => exact ⟨rfl, rfl, rfl, rfl, rfl⟩
        | ausschalten => exact ⟨rfl, rfl, rfl, rfl, rfl⟩
  · intro hA
    rw [hclose ch hA]
    cases hist with
    | Entitaet =>
        refine ⟨rfl, rfl, ?_, ?_⟩
        · intro h0
          replace h0 : c.entitaetListe.get? c.aktuellerEntitaetIndex = none := h0
          show (match c.entitaetListe.get? c.aktuellerEntitaetIndex with
                | none => LEERER_FRAME
                | some f => if f = "" then LEERER_FRAME else f) = LEERER_FRAME
          rw [h0]
        · intro f hf
          replace hf : c.entitaetListe.get? c.aktuellerEntitaetIndex = some f := hf
          show (match c.entitaetListe.get? c.aktuellerEntitaetIndex with
                | none => LEERER_FRAME
                | some g => if g = "" then LEERER_FRAME else g)
            = if f = "" then LEERER_FRAME else f
          rw [hf]
    | Allgemein =>
        refine ⟨rfl, rfl, ?_, ?_⟩
        · intro h0
          replace h0 : c.allgemeineListe.get? c.aktuellerAllgemeinIndex = none := h0
          show (match c.allgemeineListe.get? c.aktuellerAllgemeinIndex with
                | none => LEERER_FRAME
                | some f => if f = "" then LEERER_FRAME else f) = LEERER_FRAME
          rw [h0]
        · intro f hf
          replace hf : c.allgemeineListe.get? c.aktuellerAllgemeinIndex = some f := hf
          show (match c.allgemeineListe.get? c.aktuellerAllgemeinIndex with
                | none => LEERER_FRAME
                | some g => if g = "" then LEERER_FRAME else g)
            = if f = "" then LEERER_FRAME else f
          rw [hf]

theorem C6_amended_interruption_roundtrip_witness :
    (step (step (step initialConfig (.ladeNeueListe ["E1", "E2", "E3"] .ENTITAET))
        .naechsterFrame) (.notfallEmpfangen ["A1", "A2"])).state
      = .NotfallModus .Bestaetigen ∧
    (step (step (step initialConfig (.ladeNeueListe ["E1", "E2", "E3"] .ENTITAET))
        .naechsterFrame) (.notfallEmpfangen ["A1", "A2"])).context.anzeigeKontext
      = .NOTFALL ∧
    (step (step (step initialConfig (.ladeNeueListe ["E1", "E2", "E3"] .ENTITAET))
        .naechsterFrame)
        (.notfallEmpfangen ["A1", "A2"])).context.herkunftsZustand
      = "ArbeitsModus" ∧
    (step (step (step (step initialConfig
        (.ladeNeueListe ["E1", "E2", "E3"] .ENTITAET)) .naechsterFrame)
        (.notfallEmpfangen ["A1", "A2"])) .schliessen).state
      = .ArbeitsModus (step (step (step initialConfig
        (.ladeNeueListe ["E1", "E2", "E3"] .ENTITAET)) .naechsterFrame)
        (.notfallEmpfangen ["A1", "A2"])).history :=
  ⟨by decide, by decide, by decide,
   ((C6_amended_interruption_roundtrip _ .Bestaetigen (by decide)
      (by decide)).2 (by decide)).1⟩

/-- C7: in `WorkMode` (either child) and `EmergencyMode.Display`, for the
sequence selected by `displayContext`: `next` is a no-op when the list is empty
or the cursor sits at the last index, `previous` is a no-op when the list is
empty or the cursor is 0, and otherwise the cursor moves by exactly ±1 with
`currentFrame` becoming the element at the new cursor; in particular
`loadList(["E1","E2","E3"], ENTITY)` followed by three `next` dispatches gives
cursors 1, 2, 2 and final frame `"E3"`. -/
theorem C7_navigation (cfg : Config) (a : ActiveSelection)
    (hws : (∃ ch, cfg.state = .ArbeitsModus ch) ∨
      cfg.state = .NotfallModus .Anzeigen)
    (hget : getActiveContext cfg.context = some a)
    (hcur : cursorOk a.list a.index) :
    ((a.list = [] ∨ a.index + 1 = a.list.length) →
      step cfg .naechsterFrame = cfg) ∧
    (a.list ≠ [] → a.index + 1 ≠ a.list.length →
      ∃ f, a.list.get? (a.index + 1) = some f ∧
        step cfg .naechsterFrame
          = { cfg with context :=
              assignActive cfg.context a.key (a.index + 1) f }) ∧
    ((a.list = [] ∨ a.index = 0) → step cfg .vorherigerFrame = cfg) ∧
    (a.list ≠ [] → a.index ≠ 0 →
      ∃ f, a.list.get? (a.index - 1) = some f ∧
        step cfg .vorherigerFrame
          = { cfg with context :=
              assignActive cfg.context a.key (a.index - 1) f }) ∧
    ((step (step initialConfig (.ladeNeueListe ["E1", "E2", "E3"] .ENTITAET))
        .naechsterFrame).context.aktuellerEntitaetIndex = 1 ∧
     (step (step (step initialConfig
        (.ladeNeueListe ["E1", "E2", "E3"] .ENTITAET)) .naechsterFrame)
        .naechsterFrame).context.aktuellerEntitaetIndex = 2 ∧
     (step (step (step (step initialConfig
        (.ladeNeueListe ["E1", "E2", "E3"] .ENTITAET)) .naechsterFrame)
        .naechsterFrame) .naechsterFrame).context.aktuellerEntitaetIndex = 2 ∧
     (step (step (step (step initialConfig
        (.ladeNeueListe ["E1", "E2", "E3"] .ENTITAET)) .naechsterFrame)
        .naechsterFrame) .naechsterFrame).context.aktuellerFrame = "E3") := by
  obtain ⟨s, hist, c⟩ := cfg
  replace hget : getActiveContext c = some a := hget
  rcases hws with ⟨ch, hst⟩ | hst
  · replace hst : s = .ArbeitsModus ch := hst
    subst hst
    have hsN : step ⟨.ArbeitsModus ch, hist, c⟩ .naechsterFrame
        = if hasNextFrame c = true
          then ⟨.ArbeitsModus ch, hist, frameNavigation c 1⟩
          else ⟨.ArbeitsModus ch, hist, c⟩ := rfl
    have hsP : step ⟨.ArbeitsModus ch, hist, c⟩ .vorherigerFrame
        = if hasPreviousFrame c = true
          then ⟨.ArbeitsModus ch, hist, frameNavigation c (-1)⟩
          else ⟨.ArbeitsModus ch, hist, c⟩ := rfl
    refine ⟨?_, ?_, ?_, ?_, by decide⟩
    · intro hcase
      rw [hsN, hasNextFrame_false_of hget hcase]
      simp
    · intro h1 h2
      have hlt : a.index + 1 < a.list.length := by
        rcases hcur with ⟨hA, hB⟩
        have := hB h1
        omega
      have hex : ∃ f, a.list.get? (a.index + 1) = some f := by
        cases hq : a.list.get? (a.index + 1) with
        | none => exact absurd (List.get?_eq_none.mp hq) (by omega)
        | some f => exact ⟨f, rfl⟩
      obtain ⟨f, hf⟩ := hex
      refine ⟨f, hf, ?_⟩
      rw [hsN, hasNextFrame_true_of hget hlt, if_pos rfl,
        frameNavigation_next hget hlt, hf]
      rfl
    · intro hcase
      rw [hsP, hasPreviousFrame_false_of hget hcase]
      simp
    · intro h1 h2
      have hlt : a.index - 1 < a.list.length := by
        rcases hcur with ⟨hA, hB⟩
        have := hB h1
        omega
      have hex : ∃ f, a.list.get? (a.index - 1) = some f := by
        cases hq : a.list.get? (a.index - 1) with
        | none => exact absurd (List.get?_eq_none.mp hq) (by omega)
        | some f => exact ⟨f, rfl⟩
      obtain ⟨f, hf⟩ := hex
      refine ⟨f, hf, ?_⟩
      rw [hsP, hasPreviousFrame_true_of hget h2 h1, if_pos rfl,
        frameNavigation_prev hget h2 hlt, hf]
      rfl
  · replace hst : s = .NotfallModus .Anzeigen := hst
    subst hst
    have hsN : step ⟨.NotfallModus .Anzeigen, hist, c⟩ .naechsterFrame
        = if hasNextFrame c = true
          then ⟨.NotfallModus .Anzeigen, hist, frameNavigation c 1⟩
          else ⟨.NotfallModus .Anzeigen, hist, c⟩ := rfl
    have hsP : step ⟨.NotfallModus .Anzeigen, hist, c⟩ .vorherigerFrame
        = if hasPreviousFrame c = true
          then ⟨.NotfallModus .Anzeigen, hist, frameNavigation c (-1)⟩
          else ⟨.NotfallModus .Anzeigen, hist, c⟩ := rfl
    refine ⟨?_, ?_, ?_, ?_, by decide⟩
    · intro hcase
      rw [hsN, hasNextFrame_false_of hget hcase]
      simp
    · intro h1 h2
      have hlt : a.index + 1 < a.list.length := by
        rcases hcur with ⟨hA, hB⟩
        have := hB h1
        omega
      have hex : ∃ f, a.list.get? (a.index + 1) = some f := by
        cases hq : a.list.get? (a.index + 1) with
        | none => exact absurd (List.get?_eq_none.mp hq) (by omega)
        | some f => exact ⟨f, rfl⟩
      obtain ⟨f, hf⟩ := hex
      refine ⟨f, hf, ?_⟩
      rw [hsN, hasNextFrame_true_of hget hlt, if_pos rfl,
        frameNavigation_next hget hlt, hf]
      rfl
    · intro hcase
      rw [hsP, hasPreviousFrame_false_of hget hcase]
      simp
    · intro h1 h2
      have hlt : a.index - 1 < a.list.length := by
        rcases hcur with ⟨hA, hB⟩
        have := hB h1
        omega
      have hex : ∃ f, a.list.get? (a.index - 1) = some f := by
        cases hq : a.list.get? (a.index - 1) with
        | none => exact absurd (List.get?_eq_none.mp hq) (by omega)
        | some f => exact ⟨f, rfl⟩
      obtain ⟨f, hf⟩ := hex
      refine ⟨f, hf, ?_⟩
      rw [hsP, hasPreviousFrame_true_of hget h2 h1, if_pos rfl,
        frameNavigation_prev hget h2 hlt, hf]
      rfl

theorem C7_navigation_witness :
    getActiveContext (step initialConfig
      (.ladeNeueListe ["E1", "E2", "E3"] .ENTITAET)).context
      = some ⟨["E1", "E2", "E3"], 0, .entitaet⟩ ∧
    cursorOk (["E1", "E2", "E3"] : List String) 0 ∧
    ∃ f, (["E1", "E2", "E3"] : List String).get? 1 = some f ∧
      step (step initialConfig (.ladeNeueListe ["E1", "E2", "E3"] .ENTITAET))
        .naechsterFrame
      = { step initialConfig (.ladeNeueListe ["E1", "E2", "E3"] .ENTITAET) with
          context := assignActive (step initialConfig
            (.ladeNeueListe ["E1", "E2", "E3"] .ENTITAET)).context
            .entitaet 1 f } :=
  ⟨by decide, by decide,
   (C7_navigation _ ⟨["E1", "E2", "E3"], 0, .entitaet⟩
      (Or.inl ⟨.Entitaet, by decide⟩) (by decide) (by decide)).2.1
      (by decide) (by decide)⟩

/-- C8: for `search(name)` in `WorkMode` or `EmergencyMode.Display`, over the
sequence selected by `displayContext`: when no element equals `name` the
dispatch leaves the whole configuration unchanged; when some element equals
`name` the cursor moves to the first such index and `currentFrame` becomes
that element. -/
theorem C8_search (cfg : Config) (a : ActiveSelection) (name : String)
    (hws : (∃ ch, cfg.state = .ArbeitsModus ch) ∨
      cfg.state = .NotfallModus .Anzeigen)
    (hget : getActiveContext cfg.context = some a) :
    (name ∉ a.list → step cfg (.sucheFrame name) = cfg) ∧
    (name ∈ a.list → ∃ i,
      a.list.get? i = some name ∧
      (∀ j, j < i → a.list.get? j ≠ some name) ∧
      step cfg (.sucheFrame name)
        = { cfg with context := assignActive cfg.context a.key i name }) := by
  obtain ⟨s, hist, c⟩ := cfg
  replace hget : getActiveContext c = some a := hget
  rcases hws with ⟨ch, hst⟩ | hst
  · replace hst : s = .ArbeitsModus ch := hst
    subst hst
    have hsS : step ⟨.ArbeitsModus ch, hist, c⟩ (.sucheFrame name)
        = ⟨.ArbeitsModus ch, hist, searchFrame c name⟩ := rfl
    constructor
    · intro hmem
      rw [hsS, searchFrame_eq name hget, listIndexOf_none_iff.mpr hmem]
    · intro hmem
      obtain ⟨i, hfind⟩ := listIndexOf_isSome_of_mem hmem
      refine ⟨i, listIndexOf_get hfind, listIndexOf_first hfind, ?_⟩
      rw [hsS, searchFrame_eq name hget, hfind]
      dsimp only
      rw [listIndexOf_get hfind]
      rfl
  · replace hst : s = .NotfallModus .Anzeigen := hst
    subst hst
    have hsS : step ⟨.NotfallModus .Anzeigen, hist, c⟩ (.sucheFrame name)
        = ⟨.NotfallModus .Anzeigen, hist, searchFrame c name⟩ := rfl
    constructor
    · intro hmem
      rw [hsS, searchFrame_eq name hget, listIndexOf_none_iff.mpr hmem]
    · intro hmem
      obtain ⟨i, hfind⟩ := listIndexOf_isSome_of_mem hmem
      refine ⟨i, listIndexOf_get hfind, listIndexOf_first hfind, ?_⟩
      rw [hsS, searchFrame_eq name hget, hfind]
      dsimp only
      rw [listIndexOf_get hfind]
      rfl

theorem C8_search_witness :
    getActiveContext (step initialConfig
      (.ladeNeueListe ["E1", "E2", "E3"] .ENTITAET)).context
      = some ⟨["E1", "E2", "E3"], 0, .entitaet⟩ ∧
    "E2" ∈ (["E1", "E2", "E3"] : List String) ∧
    (∃ i, (["E1", "E2", "E3"] : List String).get? i = some "E2" ∧
      (∀ j, j < i → (["E1", "E2", "E3"] : List String).get? j ≠ some "E2") ∧
      step (step initialConfig (.ladeNeueListe ["E1", "E2", "E3"] .ENTITAET))
        (.sucheFrame "E2")
      = { step initialConfig (.ladeNeueListe ["E1", "E2", "E3"] .ENTITAET) with
          context := assignActive (step initialConfig
            (.ladeNeueListe ["E1", "E2", "E3"] .ENTITAET)).context
            .entitaet i "E2" }) :=
  ⟨by decide, by decide,
   (C8_search _ ⟨["E1", "E2", "E3"], 0, .entitaet⟩ "E2"
      (Or.inl ⟨.Entitaet, by decide⟩) (by decide)).2 (by decide)⟩

theorem C3_amended_whitespace_ids_witness :
    StoreWF [("s1", initialConfig)] ∧
    trimEmpty " " = true ∧ (" " : String) ≠ "" ∧
    getSession [("s1", initialConfig)] " " = .ok none :=
  ⟨by decide, by decide, by decide,
   (C3_amended_whitespace_ids [("s1", initialConfig)] " "
      (by decide) (by decide) (by decide)).1⟩

end FrameService
